import Mathlib

/-!
Verification of the Phredator QC Assessment Engine.

Shallow embedding of the core engine:
* `phredator/utils/profile_loader.py` — threshold-profile merging
  (`ProfileLoader.get_combined_thresholds`, `_get_default_thresholds`,
  `OrganismProfile`, `ExperimentProfile`);
* `phredator/rules/qc_rules.py` — the rule engine (`QCRulesEngine` and its
  five metric evaluators plus `generate_overall_assessment`);
* `phredator/analyzer/adaptive_thresholds.py` — the adaptive threshold
  calibrator (`AdaptiveThresholdCalibrator`).

Python floats are embedded as rationals (`ℚ`); every numeric computation the
verified claims touch is exact arithmetic on the concrete values involved, so
no claim depends on IEEE rounding.  The sole exception is the sample standard
deviation inside the calibrator, which takes a square root and is embedded
over `ℝ`.  Python dictionaries that carry threshold data are embedded as
insertion-ordered association lists with the Python `dict.update` semantics.
Numeric text produced by Python f-string formatting (e.g. `{x:.1f}`) is
abstracted by `toString` on the exact rational; no claim inspects such
formatted digits — every string a claim touches is a verbatim literal.
-/

/-- Values stored in a threshold dictionary: numbers, booleans (e.g.
`check_duplicates`), or numeric lists (e.g. `gc_content.range = [35, 65]`). -/
inductive Val where
  | num (q : ℚ)
  | boolv (b : Bool)
  | listv (l : List ℚ)
deriving DecidableEq, Repr

/-- An insertion-ordered string-keyed dictionary, as Python `dict`. -/
abbrev SDict : Type := List (String × Val)

/-- Lookup of a key, first occurrence (Python dicts have unique keys). -/
def SDict.find (d : SDict) (k : String) : Option Val :=
  (List.find? (fun p => p.1 = k) d).map Prod.snd

/-- Python `d.get(k, dflt)` for an entry expected to be numeric.  (The engine
only ever applies this to entries the data model types as numbers.) -/
def SDict.getNum (d : SDict) (k : String) (dflt : ℚ) : ℚ :=
  match d.find k with
  | some (Val.num q) => q
  | _ => dflt

/-- Python `d.get(k, dflt)` for an entry expected to be boolean. -/
def SDict.getBool (d : SDict) (k : String) (dflt : Bool) : Bool :=
  match d.find k with
  | some (Val.boolv b) => b
  | _ => dflt

/-- Python `d[k] = v`: replace the value in place if the key is present,
append the pair otherwise. -/
def SDict.setKey (d : SDict) (k : String) (v : Val) : SDict :=
  if (List.any d (fun p => p.1 = k)) then
    List.map (fun p => if p.1 = k then (k, v) else p) d
  else
    d ++ [(k, v)]

/-- Python `d.update(other)`: for each key of `other` in order, set it in `d`. -/
def SDict.update (d other : SDict) : SDict :=
  List.foldl (fun acc p => SDict.setKey acc p.1 p.2) d other

/-- Embedding of `OrganismProfile` (profile_loader.py).  The fields
`overrepresented` and `read_length` exist on the dataclass but are never read
by `get_combined_thresholds`; they are carried for fidelity. -/
structure OrganismProfile where
  name : String
  gc_content : SDict
  quality : SDict
  duplication : SDict
  adapters : SDict
  n_content : SDict
  overrepresented : SDict
  read_length : SDict
  notes : String := ""
  assembly : String := ""
deriving DecidableEq

/-- Embedding of `ExperimentProfile` (profile_loader.py).  `gc_content` is
`data.get(gc_content)`: `none` when the YAML does not declare the key. -/
structure ExperimentProfile where
  name : String
  abbrevName : String
  description : String
  quality : SDict
  duplication : SDict
  adapters : SDict
  special : SDict
  gc_content : Option SDict := none
  notes : String := ""
deriving DecidableEq

/-- The combined-threshold configuration.  In the source this is one Python
dict whose top-level keys are fixed by `_get_default_thresholds`; the merge
only ever reads/writes these eight keys, so they are structure fields here. -/
structure Thresholds where
  gc_content : SDict
  quality : SDict
  duplication : SDict
  adapters : SDict
  n_content : SDict
  special : SDict
  organism_name : String
  experiment_name : String
deriving DecidableEq

/-- Embedding of `ProfileLoader._get_default_thresholds`. -/
def default_thresholds : Thresholds :=
  { gc_content := [("mean", Val.num 50), ("range", Val.listv [35, 65]),
                   ("tolerance", Val.num 5)]
    quality := [("q20_threshold", Val.num (4/5)), ("q28_threshold", Val.num (4/5)),
                ("q30_threshold", Val.num (3/4)), ("mean_quality_min", Val.num 28)]
    duplication := [("acceptable", Val.num 20), ("warning", Val.num 35),
                    ("critical", Val.num 50), ("check_duplicates", Val.boolv true)]
    adapters := [("acceptable", Val.num 5), ("warning", Val.num 10),
                 ("critical", Val.num 15), ("required", Val.boolv true)]
    n_content := [("max_per_base", Val.num 5), ("max_total", Val.num 1)]
    special := []
    organism_name := "Generic"
    experiment_name := "Generic" }

/-- Embedding of `ProfileLoader.get_combined_thresholds`.  The source takes
optional organism/experiment *names* and loads profiles from disk; a missing
or unloadable profile leaves the configuration untouched, so the boundary is
modelled (as in spec §4.1) by optional already-resolved profile objects.
Note the experiment `gc_content` guard is Python truthiness
(`if exp_profile.gc_content:`): a declared-but-empty dict does not replace. -/
def get_combined_thresholds (org : Option OrganismProfile)
    (expt : Option ExperimentProfile) : Thresholds :=
  let t := default_thresholds
  let t := match org with
    | none => t
    | some o =>
        { t with
          gc_content := o.gc_content
          quality := t.quality.update o.quality
          duplication := t.duplication.update o.duplication
          adapters := t.adapters.update o.adapters
          n_content := o.n_content
          organism_name := o.name }
  match expt with
  | none => t
  | some e =>
      { t with
        quality := t.quality.update e.quality
        duplication := t.duplication.update e.duplication
        adapters := t.adapters.update e.adapters
        special := e.special
        experiment_name := e.name
        gc_content := match e.gc_content with
          | some g => if g.isEmpty then t.gc_content else g
          | none => t.gc_content }

/-- Merge semantics as the specification words them (spec §3 "Merge
precedence"), for comparison with `get_combined_thresholds`: organism
`gc_content`/`n_content` fully replace, organism `quality`/`duplication`/
`adapters` merge key-by-key; experiment `quality`/`duplication`/`adapters`
merge key-by-key over the current config, `special` fully replaces, and
`gc_content` fully replaces exactly when the experiment profile declares a
non-empty one (the minimal amendment of the wording "if and only if declared" in the
spec, forced by the truthiness test in the source). -/
def combined_thresholds_per_spec (org : Option OrganismProfile)
    (expt : Option ExperimentProfile) : Thresholds :=
  let base := default_thresholds
  let afterOrg := match org with
    | none => base
    | some o =>
        { gc_content := o.gc_content
          quality := base.quality.update o.quality
          duplication := base.duplication.update o.duplication
          adapters := base.adapters.update o.adapters
          n_content := o.n_content
          special := base.special
          organism_name := o.name
          experiment_name := base.experiment_name }
  match expt with
  | none => afterOrg
  | some e =>
      { gc_content :=
          if (match e.gc_content with
              | some g => !g.isEmpty
              | none => false) then
            (e.gc_content.getD [])
          else afterOrg.gc_content
        quality := afterOrg.quality.update e.quality
        duplication := afterOrg.duplication.update e.duplication
        adapters := afterOrg.adapters.update e.adapters
        n_content := afterOrg.n_content
        special := e.special
        organism_name := afterOrg.organism_name
        experiment_name := e.name }

/-- Embedding of the three-valued `QCStatus` enum (qc_rules.py). -/
inductive QCStatus where
  | PASS
  | WARN
  | FAIL
deriving DecidableEq, Repr

/-- Embedding of the `QCRule` dataclass (qc_rules.py). -/
structure QCRule where
  name : String
  description : String
  pass_threshold : ℚ
  warn_threshold : ℚ
  higher_is_better : Bool := true
deriving DecidableEq

/-- The rule table.  In the source `QC_RULES` is a dict with exactly these
seven keys and every evaluator accesses fixed keys, so the dict is embedded
as a structure with one field per key. -/
structure RuleSet where
  per_base_quality_mean : QCRule
  per_base_quality_median : QCRule
  gc_content : QCRule
  gc_content_lower : QCRule
  duplication_level : QCRule
  adapter_content : QCRule
  overrepresented_sequences : QCRule
deriving DecidableEq

/-- Embedding of the module-level `QC_RULES` defaults (qc_rules.py). -/
def QC_RULES : RuleSet :=
  { per_base_quality_mean :=
      { name := "Per Base Quality (Mean)"
        description := "Average quality score across all bases should be high"
        pass_threshold := 28, warn_threshold := 20, higher_is_better := true }
    per_base_quality_median :=
      { name := "Per Base Quality (Median)"
        description := "Median quality score should be consistently high"
        pass_threshold := 30, warn_threshold := 25, higher_is_better := true }
    gc_content :=
      { name := "GC Content"
        description := "GC content should be within expected range for organism"
        pass_threshold := 65, warn_threshold := 70, higher_is_better := false }
    gc_content_lower :=
      { name := "GC Content (Lower Bound)"
        description := "GC content should not be too low"
        pass_threshold := 35, warn_threshold := 30, higher_is_better := true }
    duplication_level :=
      { name := "Sequence Duplication Level"
        description := "High duplication may indicate PCR over-amplification or low complexity"
        pass_threshold := 20, warn_threshold := 50, higher_is_better := false }
    adapter_content :=
      { name := "Adapter Content"
        description := "Adapter sequences should be minimal or absent"
        pass_threshold := 5, warn_threshold := 10, higher_is_better := false }
    overrepresented_sequences :=
      { name := "Overrepresented Sequences"
        description := "Number of overrepresented sequences (contamination indicator)"
        pass_threshold := 5, warn_threshold := 10, higher_is_better := false } }

/-- Embedding of `QCRulesEngine._update_rules_from_thresholds`.  A full
combined-threshold configuration always contains the `duplication`,
`adapters` and `quality` keys, so all three updates apply. -/
def update_rules_from_thresholds (r : RuleSet) (t : Thresholds) : RuleSet :=
  let r := { r with duplication_level :=
      { name := "Sequence Duplication Level"
        description := "High duplication may indicate PCR over-amplification or low complexity"
        pass_threshold := t.duplication.getNum "acceptable" 20
        warn_threshold := t.duplication.getNum "critical" 50
        higher_is_better := false } }
  let r := { r with adapter_content :=
      { name := "Adapter Content"
        description := "Adapter sequences should be minimal or absent"
        pass_threshold := t.adapters.getNum "acceptable" 5
        warn_threshold := t.adapters.getNum "critical" 15
        higher_is_better := false } }
  let mean_min := t.quality.getNum "mean_quality_min" 28
  { r with per_base_quality_mean :=
      { name := "Per Base Quality (Mean)"
        description := "Average quality score across all bases should be high"
        pass_threshold := mean_min
        warn_threshold := max 20 (mean_min - 8)
        higher_is_better := true } }

/-- Embedding of the `QCRulesEngine` state.  `thresholds` is `none` for an
engine built without a configuration (Python `thresholds=None`, stored as
`{}`) and `some t` for an engine built from a full combined configuration —
the only two states the program constructs.  The unused `custom_rules`
constructor argument (never passed anywhere in the repository) is omitted. -/
structure QCRulesEngine where
  rules : RuleSet
  thresholds : Option Thresholds

/-- Embedding of `QCRulesEngine.__init__`. -/
def mkEngine (t : Option Thresholds) : QCRulesEngine :=
  { rules := match t with
      | some th => update_rules_from_thresholds QC_RULES th
      | none => QC_RULES
    thresholds := t }

/-- Numeric formatting stand-in for Python f-string number rendering. -/
def fq (q : ℚ) : String := toString q

/-- Per-position quality record.  The parser supplies a dict per position;
`mean`/`median` are `none` when the corresponding key is absent (the engine
reads them with `.get(key, 0)`, the calibrator skips positions lacking
`"mean"`). -/
structure PosData where
  mean : Option ℚ := none
  median : Option ℚ := none
deriving DecidableEq

/-- A per-position quality map, in the source a `Dict[str, Dict[str, float]]`
iterated in insertion order. -/
abbrev PerBaseQuality : Type := List (String × PosData)

/-- Mean values extracted as the engine does: `v.get("mean", 0)` per entry. -/
def all_mean_values (pbq : PerBaseQuality) : List ℚ :=
  pbq.map (fun p => p.2.mean.getD 0)

/-- Median values extracted as the engine does: `v.get("median", 0)`. -/
def all_median_values (pbq : PerBaseQuality) : List ℚ :=
  pbq.map (fun p => p.2.median.getD 0)

/-- Embedding of `QCRulesEngine.evaluate_per_base_quality`.  The tail slice
is Python `all_means[-max(1, len(all_means)//10):]`, i.e. the last
`max(1, ⌊N/10⌋)` elements. -/
def evaluate_per_base_quality (e : QCRulesEngine) (pbq : PerBaseQuality) :
    QCStatus × String × List String :=
  if pbq.isEmpty then
    (QCStatus.FAIL, "No per-base quality data available",
     ["Check if FastQC data is complete"])
  else
    let mean_rule := e.rules.per_base_quality_mean
    let median_rule := e.rules.per_base_quality_median
    let all_means := all_mean_values pbq
    let all_medians := all_median_values pbq
    if all_means.isEmpty || all_medians.isEmpty then
      (QCStatus.FAIL, "Invalid quality data", ["Verify FastQC output format"])
    else
      let avg_mean := all_means.sum / (all_means.length : ℚ)
      let avg_median := all_medians.sum / (all_medians.length : ℚ)
      let quality_drop :=
        if 10 < all_means.length then
          let last_10_pct :=
            all_means.drop (all_means.length - max 1 (all_means.length / 10))
          decide (last_10_pct.sum / (last_10_pct.length : ℚ) < mean_rule.warn_threshold)
        else false
      let base :=
        if mean_rule.pass_threshold ≤ avg_mean ∧ median_rule.pass_threshold ≤ avg_median then
          (QCStatus.PASS,
           "Excellent quality: mean Q=" ++ fq avg_mean ++ ", median Q=" ++ fq avg_median,
           ([] : List String))
        else if mean_rule.warn_threshold ≤ avg_mean ∧ median_rule.warn_threshold ≤ avg_median then
          (QCStatus.WARN,
           "Acceptable quality: mean Q=" ++ fq avg_mean ++ ", median Q=" ++ fq avg_median,
           ["Consider quality filtering or trimming low-quality bases"])
        else
          (QCStatus.FAIL,
           "Poor quality: mean Q=" ++ fq avg_mean ++ ", median Q=" ++ fq avg_median,
           ["Quality trimming strongly recommended",
            "Consider discarding this sample or re-sequencing"])
      (base.1, base.2.1,
       base.2.2 ++ if quality_drop then
         ["Quality drops at read ends - trim last 5-10 bases"] else [])

/-- The lower/upper GC bounds read from `gc_profile.get(range, [35, 65])`
followed by `[0]`/`[1]` indexing; well-typed ranges are two-element lists. -/
def gcRangeBounds (d : SDict) : ℚ × ℚ :=
  match d.find "range" with
  | some (Val.listv (a :: b :: _)) => (a, b)
  | _ => (35, 65)

/-- Embedding of `QCRulesEngine.evaluate_gc_content`. -/
def evaluate_gc_content (e : QCRulesEngine) (gc_content : ℚ)
    (expected_gc : ℚ := 50) : QCStatus × String × List String :=
  if gc_content ≤ 0 ∨ 100 < gc_content then
    (QCStatus.FAIL, "Invalid GC content: " ++ fq gc_content ++ "%",
     ["Check FastQC data integrity"])
  else
    let bounds :=
      match e.thresholds with
      | some t =>
          let gcp := t.gc_content
          (gcRangeBounds gcp, gcp.getNum "mean" expected_gc, gcp.getNum "tolerance" 5)
      | none =>
          ((e.rules.gc_content_lower.pass_threshold, e.rules.gc_content.pass_threshold),
           expected_gc, (10 : ℚ))
    let lower_bound := bounds.1.1
    let upper_bound := bounds.1.2
    let expected := bounds.2.1
    let tolerance := bounds.2.2
    let deviation := |gc_content - expected|
    if lower_bound ≤ gc_content ∧ gc_content ≤ upper_bound ∧ deviation < tolerance then
      (QCStatus.PASS,
       "Normal GC content: " ++ fq gc_content ++ "% (expected ~" ++ fq expected ++ "%)",
       [])
    else if deviation < tolerance * 2 then
      (QCStatus.WARN,
       "GC content " ++ fq gc_content ++ "% deviates " ++ fq deviation ++
         "% from expected " ++ fq expected ++ "%",
       ["GC content outside typical range"] ++
         if tolerance * (3/2) < deviation then
           ["May indicate contamination or adapter content"] else [])
    else
      (QCStatus.FAIL,
       "GC content " ++ fq gc_content ++ "% deviates " ++ fq deviation ++
         "% from expected " ++ fq expected ++ "%",
       ["Severe GC bias detected",
        "Check for contamination, adapter dimers, or wrong organism"])

/-- A duplication-level map: level label → percentage of the library. -/
abbrev DupLevels : Type := List (String × ℚ)

/-- Total duplication: the sum over every level except `"1"` (unique reads),
as in `evaluate_duplication`. -/
def total_duplication (levels : DupLevels) : ℚ :=
  ((levels.filter (fun p => p.1 ≠ "1")).map Prod.snd).sum

/-- Embedding of `QCRulesEngine.evaluate_duplication`. -/
def evaluate_duplication (e : QCRulesEngine) (duplication_levels : DupLevels) :
    QCStatus × String × List String :=
  if duplication_levels.isEmpty then
    (QCStatus.WARN, "No duplication data available", [])
  else
    let rule := e.rules.duplication_level
    let td := total_duplication duplication_levels
    let flags :=
      match e.thresholds with
      | some t => (t.special.getBool "check_duplicates" true,
                   t.special.getBool "allow_high_duplication" false)
      | none => (true, false)
    let check_duplicates := flags.1
    let allow_high_dup := flags.2
    if allow_high_dup || !check_duplicates then
      if td ≤ rule.warn_threshold then
        (QCStatus.PASS,
         "Duplication: " ++ fq td ++ "% (normal for this experiment type)", [])
      else
        (QCStatus.WARN,
         "High duplication: " ++ fq td ++ "% (acceptable for RNA-seq/ChIP-seq)",
         ["High duplication is normal for RNA-seq (abundant transcripts)",
          "DO NOT remove duplicates for RNA-seq - they are real biological signal"])
    else
      if td ≤ rule.pass_threshold then
        (QCStatus.PASS, "Low duplication: " ++ fq td ++ "%", [])
      else if td ≤ rule.warn_threshold then
        (QCStatus.WARN, "Moderate duplication: " ++ fq td ++ "%",
         ["Duplication may indicate PCR over-amplification",
          "Consider using duplicate removal tools (e.g., Picard MarkDuplicates)"])
      else
        (QCStatus.FAIL, "High duplication: " ++ fq td ++ "%",
         ["Severe duplication detected",
          "Strong recommendation: remove duplicates before downstream analysis",
          "May indicate low library complexity or PCR issues"])

/-- Maximum adapter fraction of a non-empty adapter map (Python
`max(adapter_content.values())`). -/
def maxAdapterValue (l : List (String × ℚ)) : ℚ :=
  match l with
  | [] => 0
  | x :: xs => xs.foldl (fun acc p => max acc p.2) x.2

/-- First key attaining the maximum (Python
`max(adapter_content, key=adapter_content.get)` keeps the first maximum). -/
def maxAdapterKey (l : List (String × ℚ)) : String :=
  match l with
  | [] => "Unknown"
  | x :: xs => (xs.foldl (fun best p => if best.2 < p.2 then p else best) x).1

/-- Embedding of `QCRulesEngine.evaluate_adapter_content`. -/
def evaluate_adapter_content (e : QCRulesEngine)
    (adapter_content : List (String × ℚ)) : QCStatus × String × List String :=
  if adapter_content.isEmpty then
    (QCStatus.PASS, "No adapter content detected", [])
  else
    let rule := e.rules.adapter_content
    let max_adapter := maxAdapterValue adapter_content
    let max_adapter_pos := maxAdapterKey adapter_content
    if max_adapter ≤ rule.pass_threshold then
      (QCStatus.PASS, "Minimal adapter content: " ++ fq max_adapter ++ "%", [])
    else if max_adapter ≤ rule.warn_threshold then
      (QCStatus.WARN,
       "Adapter content detected: " ++ fq max_adapter ++ "% at position " ++ max_adapter_pos,
       ["Trim adapters using tools like Cutadapt or Trimmomatic",
        "Adapters start appearing at position " ++ max_adapter_pos])
    else
      (QCStatus.FAIL,
       "High adapter content: " ++ fq max_adapter ++ "% at position " ++ max_adapter_pos,
       ["Adapter trimming is essential before analysis",
        "Use Cutadapt or Trimmomatic to remove adapters",
        "High adapter content may reduce mappability"])

/-- Embedding of `QCRulesEngine.evaluate_overrepresented_sequences`. -/
def evaluate_overrepresented_sequences (e : QCRulesEngine)
    (overrepresented_sequences : List String) : QCStatus × String × List String :=
  let rule := e.rules.overrepresented_sequences
  let num_overrep := overrepresented_sequences.length
  if num_overrep = 0 then
    (QCStatus.PASS, "No overrepresented sequences detected", [])
  else if (num_overrep : ℚ) ≤ rule.pass_threshold then
    (QCStatus.PASS, "Few overrepresented sequences: " ++ toString num_overrep,
     ["Monitor for potential contamination"])
  else if (num_overrep : ℚ) ≤ rule.warn_threshold then
    (QCStatus.WARN, "Multiple overrepresented sequences: " ++ toString num_overrep,
     ["Check for contamination or adapter dimers",
      "Run BLAST on overrepresented sequences to identify source"])
  else
    (QCStatus.FAIL, "Many overrepresented sequences: " ++ toString num_overrep,
     ["Severe contamination likely",
      "BLAST overrepresented sequences to identify contaminants",
      "Consider re-library prep or sample cleanup"])

/-- Embedding of `QCRulesEngine.generate_overall_assessment`; the Python
float comparison `fail_count > total / 2` is exact rational comparison. -/
def generate_overall_assessment
    (individual_results : List (String × QCStatus × String × List String)) :
    QCStatus × String :=
  let statuses := individual_results.map (fun p => p.2.1)
  let fail_count := statuses.count QCStatus.FAIL
  let warn_count := statuses.count QCStatus.WARN
  let total_metrics := individual_results.length
  if (total_metrics : ℚ) / 2 < (fail_count : ℚ) then
    (QCStatus.FAIL,
     "Sample FAILED QC: " ++ toString fail_count ++ "/" ++ toString total_metrics ++
       " metrics failed")
  else if 0 < fail_count ∨ 0 < warn_count then
    (QCStatus.WARN,
     if 0 < fail_count then
       "Sample quality concerns: " ++ toString fail_count ++ " failed, " ++
         toString warn_count ++ " warned"
     else
       "Sample passed with warnings: " ++ toString warn_count ++ "/" ++
         toString total_metrics ++ " metrics need attention")
  else
    (QCStatus.PASS,
     "Sample PASSED QC: all " ++ toString total_metrics ++ " metrics passed")

/-- Python `statistics.median`: sort, middle element for odd length, average
of the two middle elements for even length.  (Callers in the source guard
against the empty list, on which Python raises; the `0` fallbacks of the
unreached indexings are never exercised by a guarded call.) -/
def pymedian (values : List ℚ) : ℚ :=
  let s := values.insertionSort (· ≤ ·)
  let n := values.length
  if n % 2 = 1 then s.getD (n / 2) 0
  else (s.getD (n / 2 - 1) 0 + s.getD (n / 2) 0) / 2

/-- Python `statistics.mean`. -/
def pymean (values : List ℚ) : ℚ := values.sum / (values.length : ℚ)

/-- Embedding of `AdaptiveThresholdCalibrator.calculate_mad`:
MAD = median of the absolute deviations from the median. -/
def calculate_mad (values : List ℚ) : ℚ :=
  if values.isEmpty then 0
  else
    let median := pymedian values
    pymedian (values.map (fun x => |x - median|))

/-- Embedding of `AdaptiveThresholdCalibrator.detect_outliers_mad`: for at
least 3 values and non-zero MAD, the zero-based positions whose absolute
deviation from the median strictly exceeds `threshold * MAD`. -/
def detect_outliers_mad (values : List ℚ) (threshold : ℚ := 3) : List ℕ :=
  if values.length < 3 then []
  else
    let median := pymedian values
    let mad := calculate_mad values
    if mad = 0 then []
    else
      ((values.enum.filter (fun p => decide (threshold * mad < |p.2 - median|))).map
        Prod.fst)

/-- Embedding of `AdaptiveThresholdCalibrator.calculate_trend`: ordinary
least-squares slope of value against zero-based index. -/
def calculate_trend (values : List ℚ) : String × ℚ :=
  if values.length < 5 then ("stable", 0)
  else
    let n := values.length
    let xs := (List.range n).map (fun i => (i : ℚ))
    let x_mean := xs.sum / (n : ℚ)
    let y_mean := values.sum / (n : ℚ)
    let numer := ((xs.zip values).map (fun p => (p.1 - x_mean) * (p.2 - y_mean))).sum
    let denom := (xs.map (fun x => (x - x_mean) ^ 2)).sum
    if denom = 0 then ("stable", 0)
    else
      let slope := numer / denom
      if |slope| < 1/20 then ("stable", slope)
      else if slope < 0 then ("degrading", slope)
      else ("improving", slope)

/-- Python `statistics.stdev` (sample standard deviation) of a list of exact
rationals; the square root forces the embedding into `ℝ`. -/
noncomputable def pystdev (values : List ℚ) : ℝ :=
  Real.sqrt
    (((values.map (fun x => ((x : ℝ) - (pymean values : ℝ)) ^ 2)).sum) /
      ((values.length : ℝ) - 1))

/-- The calibrator `baseline_thresholds` dict, with its four fixed keys. -/
structure BaselineThresholds where
  excellent : ℚ
  good : ℚ
  acceptable : ℚ
  marginal : ℚ

/-- Embedding of the baselines set in `AdaptiveThresholdCalibrator.__init__`. -/
def baseline_thresholds : BaselineThresholds :=
  { excellent := 35, good := 30, acceptable := 25, marginal := 20 }

/-- Embedding of the `ThresholdCalibration` dataclass.  Fields that only
ever hold exact rationals stay in `ℚ`; `std_dev` and `recommended_threshold`
can carry a square root and live in `ℝ`. -/
structure ThresholdCalibration where
  mean_quality : ℚ
  std_dev : ℝ
  median : ℚ
  mad : ℚ
  recommended_threshold : ℝ
  confidence_level : String
  outlier_positions : List ℕ
  trend : String
  trend_rate : ℚ

/-- Embedding of `AdaptiveThresholdCalibrator._estimate_confidence`. -/
noncomputable def estimate_confidence (std : ℝ) (num_outliers total_positions : ℕ)
    (trend : String) : String :=
  let outlier_frac : ℚ :=
    if 0 < total_positions then (num_outliers : ℚ) / (total_positions : ℚ) else 0
  if std < 3 ∧ outlier_frac < 1/10 ∧ trend = "stable" then "high"
  else if 8 < std ∨ 3/10 < outlier_frac ∨ trend = "degrading" then "low"
  else "medium"

/-- Embedding of `AdaptiveThresholdCalibrator._default_calibration`. -/
noncomputable def default_calibration : ThresholdCalibration :=
  { mean_quality := 0
    std_dev := 0
    median := 0
    mad := 0
    recommended_threshold := (baseline_thresholds.acceptable : ℝ)
    confidence_level := "low"
    outlier_positions := []
    trend := "unknown"
    trend_rate := 0 }

/-- Step 1 of the calibrator: keep `pos_data["mean"]` for every position whose
record has a `"mean"` key (`isinstance(pos_data, dict) and "mean" in pos_data`). -/
def extract_quality_values (per_base_quality : PerBaseQuality) : List ℚ :=
  per_base_quality.filterMap (fun p => p.2.mean)

/-- Embedding of `AdaptiveThresholdCalibrator.calibrate_from_per_base_quality`. -/
noncomputable def calibrate_from_per_base_quality (per_base_quality : PerBaseQuality) :
    ThresholdCalibration :=
  if per_base_quality.isEmpty then default_calibration
  else
    let quality_values := extract_quality_values per_base_quality
    if quality_values.isEmpty then default_calibration
    else
      let mean_q := pymean quality_values
      let std_q : ℝ := if 1 < quality_values.length then pystdev quality_values else 0
      let median_q := pymedian quality_values
      let mad := calculate_mad quality_values
      let outliers := detect_outliers_mad quality_values
      let tr := calculate_trend quality_values
      let recommended : ℝ :=
        if 35 ≤ mean_q then (baseline_thresholds.excellent : ℝ)
        else if 30 ≤ mean_q then (baseline_thresholds.good : ℝ)
        else if 25 ≤ mean_q then (baseline_thresholds.acceptable : ℝ)
        else max 20 ((mean_q : ℝ) - std_q)
      let confidence := estimate_confidence std_q outliers.length quality_values.length tr.1
      { mean_quality := mean_q
        std_dev := std_q
        median := median_q
        mad := mad
        recommended_threshold := recommended
        confidence_level := confidence
        outlier_positions := outliers
        trend := tr.1
        trend_rate := tr.2 }

/-- Average of the last `max(1, ⌊N/10⌋)` extracted mean values — the tail the
source actually inspects for the read-end quality drop. -/
def tail_mean_average (pbq : PerBaseQuality) : ℚ :=
  let ms := all_mean_values pbq
  let tail := ms.drop (ms.length - max 1 (ms.length / 10))
  tail.sum / (tail.length : ℚ)

/-- Average of the last `⌈N/10⌉` extracted mean values — the tail the claim
(and spec §4.3) describes. -/
def ceil_tail_average (pbq : PerBaseQuality) : ℚ :=
  let ms := all_mean_values pbq
  let k := (ms.length + 9) / 10
  let tail := ms.drop (ms.length - k)
  tail.sum / (tail.length : ℚ)

/-- The verdict ladder of `evaluate_per_base_quality` as a function of the
two averages alone (no recommendation bookkeeping): used to state that the
read-end-drop flag is advisory only. -/
def verdict_from_averages (e : QCRulesEngine) (pbq : PerBaseQuality) : QCStatus :=
  let avg_mean := pymean (all_mean_values pbq)
  let avg_median := pymean (all_median_values pbq)
  if e.rules.per_base_quality_mean.pass_threshold ≤ avg_mean ∧
      e.rules.per_base_quality_median.pass_threshold ≤ avg_median then QCStatus.PASS
  else if e.rules.per_base_quality_mean.warn_threshold ≤ avg_mean ∧
      e.rules.per_base_quality_median.warn_threshold ≤ avg_median then QCStatus.WARN
  else QCStatus.FAIL

/-- Concrete per-metric result maps used for the aggregation examples. -/
def one_fail_of_three : List (String × QCStatus × String × List String) :=
  [("per_base_quality", QCStatus.FAIL, "", []),
   ("gc_content", QCStatus.PASS, "", []),
   ("duplication", QCStatus.PASS, "", [])]

/-- Two fails among three metrics. -/
def two_fail_of_three : List (String × QCStatus × String × List String) :=
  [("per_base_quality", QCStatus.FAIL, "", []),
   ("gc_content", QCStatus.FAIL, "", []),
   ("duplication", QCStatus.PASS, "", [])]

/-- C1: `generate_overall_assessment` returns overall Fail iff strictly more
than half of the evaluated metrics are Fail; otherwise Warn iff at least one
Fail or Warn exists; otherwise Pass.  One Fail among three metrics yields
Warn, two Fails among three yield Fail. -/
theorem aggregator_majority_fail_policy :
    (∀ results : List (String × QCStatus × String × List String),
      ((generate_overall_assessment results).1 = QCStatus.FAIL ↔
        (results.length : ℚ) / 2 <
          (((results.map (fun p => p.2.1)).count QCStatus.FAIL : ℕ) : ℚ)) ∧
      ((generate_overall_assessment results).1 = QCStatus.WARN ↔
        (¬ (results.length : ℚ) / 2 <
            (((results.map (fun p => p.2.1)).count QCStatus.FAIL : ℕ) : ℚ)) ∧
        (0 < (results.map (fun p => p.2.1)).count QCStatus.FAIL ∨
         0 < (results.map (fun p => p.2.1)).count QCStatus.WARN)) ∧
      ((generate_overall_assessment results).1 = QCStatus.PASS ↔
        (¬ (results.length : ℚ) / 2 <
            (((results.map (fun p => p.2.1)).count QCStatus.FAIL : ℕ) : ℚ)) ∧
        ¬ (0 < (results.map (fun p => p.2.1)).count QCStatus.FAIL ∨
           0 < (results.map (fun p => p.2.1)).count QCStatus.WARN))) ∧
    (generate_overall_assessment one_fail_of_three).1 = QCStatus.WARN ∧
    (generate_overall_assessment two_fail_of_three).1 = QCStatus.FAIL := by
  refine ⟨fun results => ?_,
    by simp +decide only [generate_overall_assessment, one_fail_of_three,
         List.map_cons, List.map_nil, List.count_cons, List.count_nil]
       norm_num,
    by simp +decide only [generate_overall_assessment, two_fail_of_three,
         List.map_cons, List.map_nil, List.count_cons, List.count_nil]
       norm_num⟩
  simp only [generate_overall_assessment]
  split
  · rename_i h
    exact ⟨iff_of_true rfl h,
      iff_of_false (fun hx => QCStatus.noConfusion hx) (fun hc => hc.1 h),
      iff_of_false (fun hx => QCStatus.noConfusion hx) (fun hc => hc.1 h)⟩
  · rename_i h
    split
    · rename_i h2
      exact ⟨iff_of_false (fun hx => QCStatus.noConfusion hx) h,
        iff_of_true rfl ⟨h, h2⟩,
        iff_of_false (fun hx => QCStatus.noConfusion hx) (fun hc => hc.2 h2)⟩
    · rename_i h2
      exact ⟨iff_of_false (fun hx => QCStatus.noConfusion hx) h,
        iff_of_false (fun hx => QCStatus.noConfusion hx) (fun hc => h2 hc.2),
        iff_of_true rfl ⟨h, h2⟩⟩

/-- C9: on an empty duplication-level mapping, `evaluate_duplication` returns
the Warn verdict with summary "No duplication data available" and no
recommendations, for every engine configuration. -/
theorem evaluate_duplication_empty_default (t : Option Thresholds) :
    evaluate_duplication (mkEngine t) [] =
      (QCStatus.WARN, "No duplication data available", []) := rfl

/-- The overrepresented-sequences rule is never touched by threshold
configuration, so every engine uses the module defaults 5/10. -/
theorem mkEngine_overrepresented_rule (t : Option Thresholds) :
    (mkEngine t).rules.overrepresented_sequences = QC_RULES.overrepresented_sequences := by
  cases t <;> rfl

/-- C10: `evaluate_overrepresented_sequences` compares the count inclusively
against the default 5/10 thresholds: counts up to 5 Pass, 6–10 Warn, Fail
from 11 on; in particular 5 passes, 10 warns, 11 fails. -/
theorem overrepresented_inclusive_thresholds :
    (∀ (t : Option Thresholds) (seqs : List String),
      (evaluate_overrepresented_sequences (mkEngine t) seqs).1 =
        if seqs.length ≤ 5 then QCStatus.PASS
        else if seqs.length ≤ 10 then QCStatus.WARN
        else QCStatus.FAIL) ∧
    (evaluate_overrepresented_sequences (mkEngine none) (List.replicate 5 "A")).1 =
      QCStatus.PASS ∧
    (evaluate_overrepresented_sequences (mkEngine none) (List.replicate 10 "A")).1 =
      QCStatus.WARN ∧
    (evaluate_overrepresented_sequences (mkEngine none) (List.replicate 11 "A")).1 =
      QCStatus.FAIL := by
  have key : ∀ (t : Option Thresholds) (seqs : List String),
      (evaluate_overrepresented_sequences (mkEngine t) seqs).1 =
        if seqs.length ≤ 5 then QCStatus.PASS
        else if seqs.length ≤ 10 then QCStatus.WARN
        else QCStatus.FAIL := by
    intro t seqs
    have hp : QC_RULES.overrepresented_sequences.pass_threshold = 5 := rfl
    have hw : QC_RULES.overrepresented_sequences.warn_threshold = 10 := rfl
    simp only [evaluate_overrepresented_sequences, mkEngine_overrepresented_rule, hp, hw]
    rcases Nat.eq_zero_or_pos seqs.length with h0 | h0
    · simp [h0]
    · rw [if_neg (by omega : ¬ seqs.length = 0)]
      by_cases h5 : seqs.length ≤ 5
      · rw [if_pos (by exact_mod_cast h5 : ((seqs.length : ℚ)) ≤ 5), if_pos h5]
      · rw [if_neg (fun hc : ((seqs.length : ℚ)) ≤ 5 =>
            h5 (by exact_mod_cast hc)), if_neg h5]
        by_cases h10 : seqs.length ≤ 10
        · rw [if_pos (by exact_mod_cast h10 : ((seqs.length : ℚ)) ≤ 10), if_pos h10]
        · rw [if_neg (fun hc : ((seqs.length : ℚ)) ≤ 10 =>
              h10 (by exact_mod_cast hc)), if_neg h10]
  refine ⟨key, ?_, ?_, ?_⟩
  · rw [key none]; rfl
  · rw [key none]; rfl
  · rw [key none]; rfl

/-- C8: the five metric evaluators are total Lean functions — every
well-typed input yields a `(verdict, summary, recommendations)` triple — and
`evaluate_gc_content` answers any scalar outside `(0, 100]` with a Fail
verdict rather than an exception. -/
theorem evaluators_total_and_invalid_gc_fails :
    (∀ (e : QCRulesEngine) (gc expected : ℚ), gc ≤ 0 ∨ 100 < gc →
      (evaluate_gc_content e gc expected).1 = QCStatus.FAIL) ∧
    (∀ (e : QCRulesEngine) (pbq : PerBaseQuality),
      ∃ out, evaluate_per_base_quality e pbq = out) ∧
    (∀ (e : QCRulesEngine) (gc expected : ℚ),
      ∃ out, evaluate_gc_content e gc expected = out) ∧
    (∀ (e : QCRulesEngine) (levels : DupLevels),
      ∃ out, evaluate_duplication e levels = out) ∧
    (∀ (e : QCRulesEngine) (adapters : List (String × ℚ)),
      ∃ out, evaluate_adapter_content e adapters = out) ∧
    (∀ (e : QCRulesEngine) (seqs : List String),
      ∃ out, evaluate_overrepresented_sequences e seqs = out) := by
  refine ⟨?_, fun e pbq => ⟨_, rfl⟩, fun e gc ex => ⟨_, rfl⟩,
    fun e l => ⟨_, rfl⟩, fun e a => ⟨_, rfl⟩, fun e s => ⟨_, rfl⟩⟩
  intro e gc expected h
  simp only [evaluate_gc_content, if_pos h]

/-- Witness for C8: GC content `0` (and likewise `-5`) is answered with a
Fail verdict by the default engine. -/
theorem evaluators_total_and_invalid_gc_fails_witness :
    (evaluate_gc_content (mkEngine none) 0 50).1 = QCStatus.FAIL ∧
    (evaluate_gc_content (mkEngine none) (-5) 50).1 = QCStatus.FAIL :=
  ⟨evaluators_total_and_invalid_gc_fails.1 (mkEngine none) 0 50 (Or.inl (by norm_num)),
   evaluators_total_and_invalid_gc_fails.1 (mkEngine none) (-5) 50 (Or.inl (by norm_num))⟩

/-- The duplication rule an engine built from a full configuration uses:
`acceptable` becomes the Pass bound and `critical` (not `warning`) becomes
the Warn bound, exactly as `_update_rules_from_thresholds` assigns them. -/
theorem mkEngine_duplication_rule (t : Thresholds) :
    (mkEngine (some t)).rules.duplication_level =
      { name := "Sequence Duplication Level"
        description := "High duplication may indicate PCR over-amplification or low complexity"
        pass_threshold := t.duplication.getNum "acceptable" 20
        warn_threshold := t.duplication.getNum "critical" 50
        higher_is_better := false } := rfl

/-- Counterexample for C4: with the default configuration (acceptable 20,
warning 35, critical 50, duplication checked, high duplication not allowed),
a total duplication of 40% exceeds the warning threshold 35, so the claim
demands Fail — but `evaluate_duplication` returns Warn, because the code
scores the Warn band against `critical`, not `warning`. -/
theorem duplication_warning_tier_counterexample :
    (evaluate_duplication (mkEngine (some default_thresholds))
        [("1", 60), ("2", 40)]).1 = QCStatus.WARN ∧
    total_duplication [("1", 60), ("2", 40)] = 40 ∧
    default_thresholds.duplication.getNum "warning" 0 = 35 ∧
    ¬ ((40 : ℚ) ≤ 35) ∧
    default_thresholds.special.getBool "allow_high_duplication" false = false ∧
    default_thresholds.special.getBool "check_duplicates" true = true := by
  refine ⟨?_, ?_, by rfl, by norm_num, by rfl, by rfl⟩
  · simp +decide only [evaluate_duplication, mkEngine, update_rules_from_thresholds,
      QC_RULES, default_thresholds, total_duplication, SDict.getNum, SDict.getBool,
      SDict.find, List.find?, List.filter, List.map_cons, List.map_nil,
      List.sum_cons, List.sum_nil, List.isEmpty]
    norm_num
  · simp +decide only [total_duplication, List.filter, List.map_cons, List.map_nil,
      List.sum_cons, List.sum_nil]
    norm_num

/-- C4 (amended): when the configuration neither allows high duplication nor
disables the duplicate check, `evaluate_duplication` sums the percentages of
every level except `"1"` and scores that total with Pass up to the
`acceptable` threshold, Warn up to the `critical` threshold, and Fail only
above `critical`; the `warning` value of the configuration is not consulted. -/
theorem duplication_standard_scale_acceptable_critical (t : Thresholds)
    (levels : DupLevels) (hne : levels ≠ [])
    (hallow : t.special.getBool "allow_high_duplication" false = false)
    (hcheck : t.special.getBool "check_duplicates" true = true) :
    (evaluate_duplication (mkEngine (some t)) levels).1 =
      if total_duplication levels ≤ t.duplication.getNum "acceptable" 20 then
        QCStatus.PASS
      else if total_duplication levels ≤ t.duplication.getNum "critical" 50 then
        QCStatus.WARN
      else QCStatus.FAIL := by
  have hemp : levels.isEmpty = false := by simp [hne]
  have hthr : (mkEngine (some t)).thresholds = some t := rfl
  simp only [evaluate_duplication, hemp, mkEngine_duplication_rule, hthr, hallow, hcheck,
    Bool.not_true, Bool.or_false, Bool.false_eq_true, if_false, Bool.false_or]
  split
  · rfl
  · split
    · rfl
    · rfl

/-- Witness for C4 (amended): the default configuration with a single
duplicated level of 10% yields a Pass, matching the acceptable/critical
scale. -/
theorem duplication_standard_scale_witness :
    (evaluate_duplication (mkEngine (some default_thresholds)) [("2", 10)]).1 =
      if total_duplication [("2", 10)] ≤
          default_thresholds.duplication.getNum "acceptable" 20 then QCStatus.PASS
      else if total_duplication [("2", 10)] ≤
          default_thresholds.duplication.getNum "critical" 50 then QCStatus.WARN
      else QCStatus.FAIL :=
  duplication_standard_scale_acceptable_critical default_thresholds
    [("2", 10)] (by simp) rfl rfl

/-- An experiment profile that declares a `gc_content` key whose value is the
empty mapping (YAML `gc_content: {}` becomes the falsy `{}` in `from_dict`). -/
def empty_gc_experiment : ExperimentProfile :=
  { name := "Empty GC"
    abbrevName := "egc"
    description := ""
    quality := []
    duplication := []
    adapters := []
    special := []
    gc_content := some [] }

/-- Counterexample for C2: this experiment profile declares a `gc_content`,
yet the merge keeps the baseline `gc_content` instead of replacing it —
`get_combined_thresholds` replaces only on a declared *non-empty* mapping
(Python truthiness), so "replaces if and only if declared" fails here. -/
theorem gc_replace_iff_declared_counterexample :
    empty_gc_experiment.gc_content = some ([] : SDict) ∧
    (get_combined_thresholds none (some empty_gc_experiment)).gc_content =
      default_thresholds.gc_content ∧
    default_thresholds.gc_content ≠ ([] : SDict) := by
  refine ⟨rfl, rfl, ?_⟩
  simp [default_thresholds]

/-- C2 (amended): `get_combined_thresholds` implements the merge
precedence of the spec exactly, with the experiment `gc_content` replacement condition
amended from "declared" to "declared and non-empty": baseline defaults, then
organism `gc_content`/`n_content` replace while `quality`/`duplication`/
`adapters` merge key-by-key, then experiment `quality`/`duplication`/
`adapters` merge key-by-key, `special` replaces, and a declared non-empty
experiment `gc_content` replaces. -/
theorem combined_thresholds_match_spec (org : Option OrganismProfile)
    (expt : Option ExperimentProfile) :
    get_combined_thresholds org expt = combined_thresholds_per_spec org expt := by
  cases org <;> cases expt <;> try rfl
  case none.some e =>
    rcases he : e.gc_content with _ | g
    · simp [get_combined_thresholds, combined_thresholds_per_spec, he]
    · by_cases hg : g.isEmpty <;>
        simp [get_combined_thresholds, combined_thresholds_per_spec, he, hg]
  case some.some o e =>
    rcases he : e.gc_content with _ | g
    · simp [get_combined_thresholds, combined_thresholds_per_spec, he]
    · by_cases hg : g.isEmpty <;>
        simp [get_combined_thresholds, combined_thresholds_per_spec, he, hg]

/-- An organism profile that overrides only `duplication.acceptable`, with a
value above the baseline `warning`. -/
def high_acceptable_organism : OrganismProfile :=
  { name := "Custom"
    gc_content := []
    quality := []
    duplication := [("acceptable", Val.num 60)]
    adapters := []
    n_content := []
    overrepresented := []
    read_length := [] }

/-- Counterexample for C5: merging this organism profile yields a
configuration with `duplication.acceptable = 60 > 35 = duplication.warning`,
so the `acceptable ≤ warning ≤ critical` invariant does not hold for every
pair of input profiles — the key-by-key merge never re-checks ordering. -/
theorem threshold_ordering_counterexample :
    ((get_combined_thresholds (some high_acceptable_organism) none).duplication.getNum
        "acceptable" 0 = 60) ∧
    ((get_combined_thresholds (some high_acceptable_organism) none).duplication.getNum
        "warning" 0 = 35) ∧
    ¬ ((60 : ℚ) ≤ 35) :=
  ⟨rfl, rfl, by norm_num⟩

/-- C5 (amended): the merge is deterministic (in this pure-functional
embedding, definitionally so: equal profile inputs give equal
configurations), and the `acceptable ≤ warning ≤ critical` ordering holds
for the baseline configuration produced with no profiles, in both the
`duplication` and `adapters` groups; the merge does not enforce the ordering
for arbitrary profile inputs. -/
theorem merge_deterministic_and_baseline_ordered :
    (∀ (org : Option OrganismProfile) (expt : Option ExperimentProfile),
      get_combined_thresholds org expt = get_combined_thresholds org expt) ∧
    ((get_combined_thresholds none none).duplication.getNum "acceptable" 0 ≤
       (get_combined_thresholds none none).duplication.getNum "warning" 0 ∧
     (get_combined_thresholds none none).duplication.getNum "warning" 0 ≤
       (get_combined_thresholds none none).duplication.getNum "critical" 0 ∧
     (get_combined_thresholds none none).adapters.getNum "acceptable" 0 ≤
       (get_combined_thresholds none none).adapters.getNum "warning" 0 ∧
     (get_combined_thresholds none none).adapters.getNum "warning" 0 ≤
       (get_combined_thresholds none none).adapters.getNum "critical" 0) := by
  have h1 : (get_combined_thresholds none none).duplication.getNum "acceptable" 0 = 20 := rfl
  have h2 : (get_combined_thresholds none none).duplication.getNum "warning" 0 = 35 := rfl
  have h3 : (get_combined_thresholds none none).duplication.getNum "critical" 0 = 50 := rfl
  have h4 : (get_combined_thresholds none none).adapters.getNum "acceptable" 0 = 5 := rfl
  have h5 : (get_combined_thresholds none none).adapters.getNum "warning" 0 = 10 := rfl
  have h6 : (get_combined_thresholds none none).adapters.getNum "critical" 0 = 15 := rfl
  exact ⟨fun _ _ => rfl,
    by rw [h1, h2]; norm_num, by rw [h2, h3]; norm_num,
    by rw [h4, h5]; norm_num, by rw [h5, h6]; norm_num⟩

/-- C7: whenever no mean values can be extracted from the per-position map
(in particular for the empty map), `calibrate_from_per_base_quality` returns
the defined default calibration: all statistics zero, recommended threshold
equal to the baseline "acceptable" threshold 25, confidence "low", no
outlier positions, trend "unknown" with rate 0 — and never raises. -/
theorem calibrate_empty_default (pbq : PerBaseQuality)
    (h : extract_quality_values pbq = []) :
    calibrate_from_per_base_quality pbq = default_calibration ∧
    default_calibration.mean_quality = 0 ∧
    default_calibration.std_dev = 0 ∧
    default_calibration.median = 0 ∧
    default_calibration.mad = 0 ∧
    default_calibration.recommended_threshold = (baseline_thresholds.acceptable : ℝ) ∧
    baseline_thresholds.acceptable = 25 ∧
    default_calibration.confidence_level = "low" ∧
    default_calibration.outlier_positions = ([] : List ℕ) ∧
    default_calibration.trend = "unknown" ∧
    default_calibration.trend_rate = 0 := by
  refine ⟨?_, rfl, rfl, rfl, rfl, rfl, rfl, rfl, rfl, rfl, rfl⟩
  simp only [calibrate_from_per_base_quality]
  by_cases hemp : pbq.isEmpty
  · rw [if_pos hemp]
  · rw [if_neg hemp]
    simp [h]

/-- Witness for C7: a one-position map whose record has no `"mean"` key. -/
theorem calibrate_empty_default_witness :
    calibrate_from_per_base_quality [("p1", { mean := none, median := some 30 })] =
      default_calibration :=
  (calibrate_empty_default [("p1", { mean := none, median := some 30 })] rfl).1

/-- C6: `detect_outliers_mad` returns `[]` for fewer than 3 values or zero
MAD, and otherwise exactly the zero-based indices whose absolute deviation
from the median strictly exceeds `3.0 × MAD`; on
`[30, 31, 32, 30, 31, 5, 30, 31]` it flags index 5 and only index 5. -/
theorem detect_outliers_mad_spec :
    (∀ (values : List ℚ) (i : ℕ),
      i ∈ detect_outliers_mad values 3 ↔
        (3 ≤ values.length ∧ calculate_mad values ≠ 0 ∧ i < values.length ∧
          3 * calculate_mad values < |values.getD i 0 - pymedian values|)) ∧
    detect_outliers_mad [30, 31, 32, 30, 31, 5, 30, 31] 3 = [5] := by
  constructor
  · intro values i
    unfold detect_outliers_mad
    by_cases h3 : values.length < 3
    · rw [if_pos h3]
      simp only [List.not_mem_nil, false_iff]
      rintro ⟨hl, -⟩
      omega
    · rw [if_neg h3]
      by_cases hmad : calculate_mad values = 0
      · rw [if_pos hmad]
        simp only [List.not_mem_nil, false_iff]
        rintro ⟨-, hm, -⟩
        exact hm hmad
      · rw [if_neg hmad]
        simp only [List.mem_map, List.mem_filter]
        constructor
        · rintro ⟨⟨j, x⟩, ⟨hmem, hpred⟩, rfl⟩
          have hj := (List.mk_mem_enum_iff_getElem?).mp hmem
          obtain ⟨hlt, hx⟩ := List.getElem?_eq_some.mp hj
          refine ⟨by omega, hmad, hlt, ?_⟩
          have hp := of_decide_eq_true hpred
          rwa [List.getD_eq_getElem values 0 hlt, hx]
        · rintro ⟨hl, -, hi, habs⟩
          refine ⟨(i, values.getD i 0), ⟨?_, decide_eq_true habs⟩, rfl⟩
          refine (List.mk_mem_enum_iff_getElem?).mpr ?_
          rw [List.getD_eq_getElem values 0 hi]
          exact List.getElem?_eq_getElem hi
  · norm_num [detect_outliers_mad, calculate_mad, pymedian, List.insertionSort,
      List.orderedInsert, List.enum, List.enumFrom, List.filter_cons, List.filter_nil,
      List.getD, abs_eq_max_neg, max_def]

/-- An 11-position quality map: nine positions at mean 30, a dip to 0 at the
tenth, recovery to 30 at the last; all medians 31. -/
def drop_tail_example : PerBaseQuality :=
  [("1", { mean := some 30, median := some 31 }),
   ("2", { mean := some 30, median := some 31 }),
   ("3", { mean := some 30, median := some 31 }),
   ("4", { mean := some 30, median := some 31 }),
   ("5", { mean := some 30, median := some 31 }),
   ("6", { mean := some 30, median := some 31 }),
   ("7", { mean := some 30, median := some 31 }),
   ("8", { mean := some 30, median := some 31 }),
   ("9", { mean := some 30, median := some 31 }),
   ("10", { mean := some 0, median := some 31 }),
   ("11", { mean := some 30, median := some 31 })]

/-- Counterexample for C3: this map has more than 10 positions and the
average of its last `⌈11/10⌉ = 2` means is `15`, below the default warn
threshold `20` — the claim then demands the "quality drop at read end"
recommendation — yet `evaluate_per_base_quality` does not emit it, because
the code inspects only the last `max(1, ⌊11/10⌋) = 1` position (mean 30). -/
theorem quality_drop_tail_window_counterexample :
    10 < drop_tail_example.length ∧
    ceil_tail_average drop_tail_example <
      (mkEngine none).rules.per_base_quality_mean.warn_threshold ∧
    "Quality drops at read ends - trim last 5-10 bases" ∉
      (evaluate_per_base_quality (mkEngine none) drop_tail_example).2.2 := by
  refine ⟨by decide, ?_, ?_⟩
  · show ceil_tail_average drop_tail_example < 20
    norm_num [ceil_tail_average, all_mean_values, drop_tail_example]
  · have r1 : (mkEngine none).rules.per_base_quality_mean.pass_threshold = 28 := rfl
    have r2 : (mkEngine none).rules.per_base_quality_median.pass_threshold = 30 := rfl
    have r3 : (mkEngine none).rules.per_base_quality_mean.warn_threshold = 20 := rfl
    have r4 : (mkEngine none).rules.per_base_quality_median.warn_threshold = 25 := rfl
    simp only [evaluate_per_base_quality, drop_tail_example, all_mean_values,
      all_median_values, List.map_cons, List.map_nil, List.sum_cons, List.sum_nil,
      List.length_cons, List.length_nil, List.isEmpty]
    norm_num [List.drop, List.mem_append, r1, r2, r3, r4]
    decide

/-- C3 (amended): for any engine and any per-position quality map with more
than 10 positions, `evaluate_per_base_quality` adds the "quality drop at
read end" recommendation if and only if the average of the means over the
last `max(1, ⌊N/10⌋)` positions is below the mean-quality warn threshold
(the claimed `⌈N/10⌉` window corrected to the floor window the code takes),
and the recommendation is advisory only: the returned verdict is exactly the
verdict determined by the overall average mean and median. -/
theorem quality_drop_floor_tail_advisory (e : QCRulesEngine) (pbq : PerBaseQuality)
    (hlen : 10 < pbq.length) :
    ("Quality drops at read ends - trim last 5-10 bases" ∈
        (evaluate_per_base_quality e pbq).2.2 ↔
      tail_mean_average pbq < e.rules.per_base_quality_mean.warn_threshold) ∧
    (evaluate_per_base_quality e pbq).1 = verdict_from_averages e pbq := by
  have hne : pbq.isEmpty = false := by
    rcases pbq with _ | ⟨a, l⟩
    · simp at hlen
    · rfl
  have hm0 : (all_mean_values pbq).isEmpty = false := by
    rcases pbq with _ | ⟨a, l⟩
    · simp at hlen
    · rfl
  have hmd0 : (all_median_values pbq).isEmpty = false := by
    rcases pbq with _ | ⟨a, l⟩
    · simp at hlen
    · rfl
  have h10 : 10 < (all_mean_values pbq).length := by
    rw [all_mean_values, List.length_map]
    exact hlen
  simp only [evaluate_per_base_quality, hne, hm0, hmd0, Bool.or_self,
    Bool.false_eq_true, if_false, if_pos h10]
  constructor
  · cases hq : decide
        (((all_mean_values pbq).drop
              ((all_mean_values pbq).length - max 1 ((all_mean_values pbq).length / 10))).sum /
            ((((all_mean_values pbq).drop
                ((all_mean_values pbq).length -
                  max 1 ((all_mean_values pbq).length / 10))).length : ℕ) : ℚ) <
          e.rules.per_base_quality_mean.warn_threshold) with
    | false =>
      have hc := of_decide_eq_false hq
      simp only [Bool.false_eq_true, if_false, List.append_nil, tail_mean_average]
      refine iff_of_false ?_ hc
      split
      · simp
      · split
        · dsimp only
          decide
        · dsimp only
          decide
    | true =>
      have hc := of_decide_eq_true hq
      simp only [if_true, tail_mean_average]
      refine iff_of_true ?_ hc
      split
      · simp
      · split
        · simp
        · simp
  · simp only [verdict_from_averages, pymean]
    split
    · rfl
    · split
      · rfl
      · rfl

/-- Witness for C3 (amended), at the default engine and an 11-position map. -/
theorem quality_drop_floor_tail_advisory_witness :
    ("Quality drops at read ends - trim last 5-10 bases" ∈
        (evaluate_per_base_quality (mkEngine none) drop_tail_example).2.2 ↔
      tail_mean_average drop_tail_example <
        (mkEngine none).rules.per_base_quality_mean.warn_threshold) ∧
    (evaluate_per_base_quality (mkEngine none) drop_tail_example).1 =
      verdict_from_averages (mkEngine none) drop_tail_example :=
  quality_drop_floor_tail_advisory (mkEngine none) drop_tail_example (by decide)
